import Mathlib

/-!
Verification of the snow_models repository against its specification.

The repository consists of three Python modules:
* `wave_propagation.py` — elastic wave speed formulas (shear, longitudinal,
  Rayleigh) over `numpy` scalars;
* `crack_propagation.py` — the anticrack propagation-speed solver, which hands
  a transcendental residual to `scipy.optimize.fsolve` and scales the returned
  root by the shear-wave speed;
* `mechanical_params.py` — closed-form density/modulus parametrizations.

Modelling conventions used throughout this development:
* Python/numpy floats are idealised as real numbers `ℝ`.
* `np.sqrt` on a scalar returns NaN for a negative argument, and the NaN
  poisons every later arithmetic step and comparison; this is modelled by
  `Option ℝ` with `none` standing for NaN (`npSqrt`).
* A division of plain Python floats raises `ZeroDivisionError` on a zero
  denominator; this is modelled by `Except` with an explicit error value
  (`pdiv`).  Divisions of `numpy` scalars do not raise and are modelled by
  Lean's total division.
* `scipy.optimize.fsolve` is external library code, not part of this
  repository; it is modelled as an opaque parameter of type `RootFinder`:
  a function from a residual and an initial guess to an estimate together
  with a convergence flag.  The source calls `fsolve` with default
  arguments, which return only the estimate, so the embedded solver reads
  only the first component and has no access to the flag.
* The `uncertainties` wrapper (`unc_wrapper`) applied to each module-level
  function passes plain scalar arguments through to the wrapped function
  unchanged, so the embeddings model the underlying underscore functions.
-/

namespace WavePropagation

/-- `np.sqrt` on a scalar: NaN (modelled as `none`) for a negative argument,
otherwise the real square root. -/
noncomputable def npSqrt (x : ℝ) : Option ℝ :=
  if x < 0 then none else some (Real.sqrt x)

/-- `_shear_wave_speed(G, rho)` from `wave_propagation.py`: `np.sqrt(G/rho)`. -/
noncomputable def shear_wave_speed (G rho : ℝ) : Option ℝ :=
  npSqrt (G / rho)

/-- `_long_wave_speed(E, rho)` from `wave_propagation.py`: `np.sqrt(E/rho)`. -/
noncomputable def long_wave_speed (E rho : ℝ) : Option ℝ :=
  npSqrt (E / rho)

/-- `_rayleigh_wave_speed(E, G, rho, nu)` from `wave_propagation.py`:
`x = np.sqrt((0.87 + 1.12*nu)/(1+nu))`, then `x * shear_wave_speed(G, rho)`.
The parameter `E` is accepted but unused, exactly as in the source. -/
noncomputable def rayleigh_wave_speed (E G rho nu : ℝ) : Option ℝ :=
  (npSqrt ((0.87 + 1.12 * nu) / (1 + nu))).bind fun x =>
    (shear_wave_speed G rho).map fun s => x * s

/-- `_youngs_to_pwave_modulus(E, nu)` from `wave_propagation.py`. -/
noncomputable def youngs_to_pwave_modulus (E nu : ℝ) : ℝ :=
  (E * (1 - nu)) / ((1 + nu) * (1 - 2 * nu))

end WavePropagation

namespace CrackPropagation

/-- Timoshenko beam correction factor for a rectangular beam,
`k = 5/6` (crack_propagation.py, line 91). -/
noncomputable def k : ℝ := 5 / 6

/-- Model of `scipy.optimize.fsolve` (external library code): from a residual
and an initial guess it produces an estimate together with a convergence flag.
The source calls `fsolve` with default arguments, which return only the
estimate, so the embedded solver reads only the first component and has no
access to the flag. -/
def RootFinder : Type := (ℝ → ℝ) → ℝ → ℝ × Bool

/-- The residual closed over by `get_speed_for_td_length`
(crack_propagation.py, line 85):
`(L**2/C**2)*((eta/(L*C*(1-C**2))) * (1/np.sin(2*C*L/eta)-1/np.tan(2*C*L/eta))-1) - 2*H_f/Sigma`. -/
noncomputable def func (eta L H_f Sigma C : ℝ) : ℝ :=
  (L ^ 2 / C ^ 2) *
      ((eta / (L * C * (1 - C ^ 2))) *
          (1 / Real.sin (2 * C * L / eta) - 1 / Real.tan (2 * C * L / eta)) - 1) -
    2 * H_f / Sigma

/-- `_anticrack_propagation_speed` (crack_propagation.py, lines 68-110), with
Python float arithmetic idealised as total real arithmetic and the `fsolve`
call abstracted by a `RootFinder`.  The dead locals of the source
(`longitudinal_wave_velocity`, `tau`, `Tau`) are retained. -/
noncomputable def anticrack_propagation_speed (fsolve : RootFinder)
    (g E nu h hf rho theta l C_initial_guess : ℝ) : ℝ :=
  let th := theta * Real.pi / 180
  let G := E / (2 * (1 + nu))
  let eta := Real.sqrt (E / (3 * k * G))
  let shear_wave_velocity := Real.sqrt (k * G / rho)
  let _longitudinal_wave_velocity := Real.sqrt (E / rho)
  let sigma := -rho * g * h * Real.cos th
  let tau := rho * g * h * Real.sin th
  let L := l / h
  let H_f := hf / h
  let Sigma := -sigma / (k * G)
  let _Tau := tau / (k * G)
  let C := (fsolve (func eta L H_f Sigma) C_initial_guess).1
  C * shear_wave_velocity

/-- The residual `_anticrack_propagation_speed` hands to `fsolve`, with the
derived quantities computed exactly as in lines 90-104 of the source. -/
noncomputable def codeResidual (g E nu h rho theta l hf : ℝ) : ℝ → ℝ :=
  let th := theta * Real.pi / 180
  let G := E / (2 * (1 + nu))
  let eta := Real.sqrt (E / (3 * k * G))
  let sigma := -rho * g * h * Real.cos th
  let L := l / h
  let H_f := hf / h
  let Sigma := -sigma / (k * G)
  func eta L H_f Sigma

/-- The residual of spec §4.1 step 6 together with the derived quantities of
steps 1-5, transcribed from the specification text:
`f(C) = (L²/C²)·[(η/(L·C·(1−C²)))·(1/sin(2CL/η) − 1/tan(2CL/η)) − 1] − 2·H_f/Σ`
with `G = E/(2(1+ν))`, `k = 5/6`, `η = sqrt(E/(3kG))`, `σ = −ρ g h cos θ`
(θ converted to radians), `L = l/h`, `H_f = h_f/h`, `Σ = −σ/(kG)`. -/
noncomputable def specResidual (g E nu h rho theta l hf : ℝ) : ℝ → ℝ := fun C =>
  let thetaRad := theta * Real.pi / 180
  let G := E / (2 * (1 + nu))
  let kSpec : ℝ := 5 / 6
  let eta := Real.sqrt (E / (3 * kSpec * G))
  let sigma := -(rho * g * h) * Real.cos thetaRad
  let L := l / h
  let H_f := hf / h
  let Sigma := -sigma / (kSpec * G)
  (L ^ 2 / C ^ 2) *
      ((eta / (L * C * (1 - C ^ 2))) *
          (1 / Real.sin (2 * C * L / eta) - 1 / Real.tan (2 * C * L / eta)) - 1) -
    2 * H_f / Sigma

/-- `_anticrack_propagation_speed` with the three dead locals of the source
(`longitudinal_wave_velocity`, `tau`, `Tau`) removed.  Used to state that the
shear stress has no effect on the returned speed. -/
noncomputable def speedWithoutTau (fsolve : RootFinder)
    (g E nu h hf rho theta l C_initial_guess : ℝ) : ℝ :=
  let th := theta * Real.pi / 180
  let G := E / (2 * (1 + nu))
  let eta := Real.sqrt (E / (3 * k * G))
  let shear_wave_velocity := Real.sqrt (k * G / rho)
  let sigma := -rho * g * h * Real.cos th
  let L := l / h
  let H_f := hf / h
  let Sigma := -sigma / (k * G)
  let C := (fsolve (func eta L H_f Sigma) C_initial_guess).1
  C * shear_wave_velocity

/-- The compressive stress of line 98 of the source, including the
degree-to-radian conversion of line 90: `sigma = -rho*g*h*np.cos(theta)`. -/
noncomputable def sigma_of (g rho h theta : ℝ) : ℝ :=
  -rho * g * h * Real.cos (theta * Real.pi / 180)

/-- The shear stress of line 100 of the source, including the
degree-to-radian conversion of line 90: `tau = rho*g*h*np.sin(theta)`. -/
noncomputable def tau_of (g rho h theta : ℝ) : ℝ :=
  rho * g * h * Real.sin (theta * Real.pi / 180)

/-- The dimensionless compressive stress of line 104 of the source:
`Sigma = -sigma/(k*G)` with `G = E/(2*(1+nu))`. -/
noncomputable def Sigma_of (E nu g rho h theta : ℝ) : ℝ :=
  -sigma_of g rho h theta / (k * (E / (2 * (1 + nu))))

/-- Python error values relevant to `_anticrack_propagation_speed`.
`invalidParameter` is the rejection the specification demands for
out-of-range inputs; the source never constructs it. -/
inductive PyErr : Type
  | zeroDivision
  | invalidParameter
  deriving DecidableEq

/-- Division of plain Python floats: raises `ZeroDivisionError` on a zero
denominator, modelled as an `Except` error. -/
noncomputable def pdiv (x y : ℝ) : Except PyErr ℝ :=
  if y = 0 then .error .zeroDivision else .ok (x / y)

/-- `_anticrack_propagation_speed` with plain-Python-float division modelled
explicitly: the divisions on lines 92, 93, 95, 96, 102 and 103 of the source
act on plain floats and raise `ZeroDivisionError` on a zero denominator, in
source order.  The divisions on lines 104 and 105 act on `numpy` scalars
(`sigma` and `tau` carry the `np.float64` type of `np.cos`/`np.sin`) and do
not raise.  The source contains no parameter validation, so no code path
produces `invalidParameter`. -/
noncomputable def anticrack_propagation_speed_py (fsolve : RootFinder)
    (g E nu h hf rho theta l C_initial_guess : ℝ) : Except PyErr ℝ :=
  let th := theta * Real.pi / 180
  match pdiv E (2 * (1 + nu)) with
  | .error e => .error e
  | .ok G =>
    match pdiv E (3 * k * G) with
    | .error e => .error e
    | .ok etaArg =>
      let eta := Real.sqrt etaArg
      match pdiv (k * G) rho with
      | .error e => .error e
      | .ok swv =>
        let shear_wave_velocity := Real.sqrt swv
        match pdiv E rho with
        | .error e => .error e
        | .ok lwv =>
          let _longitudinal_wave_velocity := Real.sqrt lwv
          let sigma := -rho * g * h * Real.cos th
          let tau := rho * g * h * Real.sin th
          match pdiv l h with
          | .error e => .error e
          | .ok L =>
            match pdiv hf h with
            | .error e => .error e
            | .ok H_f =>
              let Sigma := -sigma / (k * G)
              let _Tau := tau / (k * G)
              let C := (fsolve (func eta L H_f Sigma) C_initial_guess).1
              .ok (C * shear_wave_velocity)

/-- SlabParameters (spec §3): the caller-supplied scalar arguments of one
solver invocation, bundled.  Every derived quantity is constructed afresh
from these inside the call. -/
structure SlabParameters : Type where
  g : ℝ
  E : ℝ
  nu : ℝ
  h : ℝ
  hf : ℝ
  rho : ℝ
  theta : ℝ
  l : ℝ
  C_initial_guess : ℝ

/-- One call of the `Except`-level solver on bundled parameters. -/
noncomputable def speedOn (fsolve : RootFinder) (p : SlabParameters) : Except PyErr ℝ :=
  anticrack_propagation_speed_py fsolve p.g p.E p.nu p.h p.hf p.rho p.theta p.l
    p.C_initial_guess

/-- Two successive calls of the solver with the same arguments.  The
embedding is a pure function because the source touches no state outside the
invocation: every quantity in `_anticrack_propagation_speed` is a local of
the call. -/
noncomputable def speedOnTwice (fsolve : RootFinder) (p : SlabParameters) :
    Except PyErr ℝ × Except PyErr ℝ :=
  (speedOn fsolve p, speedOn fsolve p)

/-- A root finder that immediately returns the initial guess, flagged
converged. -/
def idFinder : RootFinder := fun _ C0 => (C0, true)

/-- A root finder whose convergence flag is `false`: it reports failure and
hands back an unconverged estimate. -/
noncomputable def stuckFinder : RootFinder := fun _ _ => (2 / 5, false)

/-- A root finder returning the estimate 2, outside the unit interval. -/
def outsideFinder : RootFinder := fun _ _ => (2, true)

/-- The concrete slab parameters of the spec §8 scenario: g = 9.81,
E = 10⁶ Pa, ν = 0.2, h = 0.3 m, h_f = 0.02 m, ρ = 200 kg/m³, θ = 38°,
l = 1.0 m, C₀ = 0.5. -/
noncomputable def sampleParams : SlabParameters :=
  ⟨981 / 100, 1000000, 1 / 5, 3 / 10, 1 / 50, 200, 38, 1, 1 / 2⟩

end CrackPropagation

namespace MechanicalParams

/-- The unit strings accepted by `get_E_from_rho.scale_output`. -/
def validUnits : List String := ["Pa", "kPa", "MPa", "GPa"]

/-- `get_E_from_rho.scale_output` (mechanical_params.py, lines 33-53): scales
a Pa value to the requested unit; on any other unit string it prints a
message and returns `None` (the print is I/O with no value-level effect, so
only the null-like return is modelled). -/
noncomputable def scale_output (output_unit : String) (result : ℝ) : Option ℝ :=
  if output_unit = "Pa" then some result
  else if output_unit = "kPa" then some (result * 1e-3)
  else if output_unit = "MPa" then some (result * 1e-6)
  else if output_unit = "GPa" then some (result * 1e-9)
  else none

/-- The condition under which the Python float expression
`scaling[0]/scaling_factor * scaling[1]**scaling_factor` of
`get_E_from_rho.apply_scaling` raises: division by a zero `scaling_factor`,
or `0.0 ** negative`.  (A negative `scaling[1]` with a non-integer exponent
yields a complex number in Python, which does not raise.) -/
def scalingRaises (scaling : ℝ × ℝ) (scaling_factor : ℝ) : Prop :=
  scaling_factor = 0 ∨ (scaling.2 = 0 ∧ scaling_factor < 0)

noncomputable instance (s : ℝ × ℝ) (sf : ℝ) : Decidable (scalingRaises s sf) :=
  Classical.propDecidable _

/-- `get_E_from_rho.apply_scaling` (mechanical_params.py, lines 55-75): with
a scaling datum present it computes
`factor = scaling[0]/scaling_factor * scaling[1]**scaling_factor` and
returns `factor * formula_result`; the bare `try/except` turns the raise
condition into a printed message and a `None` return; with no scaling datum
the raw result passes through.  (On the non-raising path with a negative
`scaling[1]` Python produces a complex value; the embedding keeps the
principal real power, which no claim inspects.) -/
noncomputable def apply_scaling (scaling : Option (ℝ × ℝ))
    (scaling_factor formula_result : ℝ) : Option ℝ :=
  match scaling with
  | none => some formula_result
  | some s =>
    if scalingRaises s scaling_factor then none
    else some (s.1 / scaling_factor * Real.rpow s.2 scaling_factor * formula_result)

/-- The grain types supported by `get_rho_from_hhi_geldsetzer_2001`. -/
def supportedGrainTypes : List String :=
  ["PP", "PPgp", "DF", "RG", "RGmx", "FC", "FCmx", "DH", "MFcr", "MF", "IF", "SH"]

/-- `get_rho_from_hhi_geldsetzer_2001` (mechanical_params.py, lines 172-215):
density and uncertainty from hand-hardness index and grain type.  `np.nan` is
modelled as `none`; raising `ValueError` is modelled as `Except.error`
carrying the message; the final `ufloat(rho, unc_rho)` packages the pair and
raises on none of the produced values. -/
noncomputable def get_rho_from_hhi_geldsetzer_2001 (hhi : ℝ) (gt : String) :
    Except String (Option ℝ × Option ℝ) :=
  if gt = "PP" then .ok (some (45 + 36 * hhi), some 27)
  else if gt = "PPgp" then .ok (some (83 + 37 * hhi), some 42)
  else if gt = "DF" then .ok (some (65 + 36 * hhi), some 30)
  else if gt = "RG" then .ok (some (154 + 1.51 * Real.rpow hhi 3.15), some 46)
  else if gt = "RGmx" then .ok (some (91 + 42 * hhi), some 32)
  else if gt = "FC" then .ok (some (112 + 46 * hhi), some 43)
  else if gt = "FCmx" then .ok (some (56 + 64 * hhi), some 43)
  else if gt = "DH" then .ok (some (185 + 25 * hhi), some 41)
  else if gt = "MFcr" then .ok (some (2 * (185 + 25 * hhi)), some (2 * 41))
  else if gt = "MF" then .ok (some (2 * (185 + 25 * hhi)), some (2 * 41))
  else if gt = "IF" then .ok (some 870, some 50)
  else if gt = "SH" then .ok (none, none)
  else .error ("grain type not valid: " ++ gt)

end MechanicalParams

namespace WavePropagation

theorem npSqrt_of_nonneg {x : ℝ} (hx : 0 ≤ x) : npSqrt x = some (Real.sqrt x) := by
  simp [npSqrt, not_lt.mpr hx]

theorem npSqrt_of_neg {x : ℝ} (hx : x < 0) : npSqrt x = none := by
  simp [npSqrt, hx]

end WavePropagation

namespace CrackPropagation

theorem pdiv_of_ne {y : ℝ} (hy : y ≠ 0) (x : ℝ) : pdiv x y = .ok (x / y) := by
  simp [pdiv, hy]

theorem pdiv_of_eq {y : ℝ} (hy : y = 0) (x : ℝ) : pdiv x y = .error .zeroDivision := by
  simp [pdiv, hy]

/-- Under a nonzero `2*(1+nu)`, the denominator of the eta argument on line
93 is nonzero exactly when `E` is. -/
theorem eta_denominator_ne_zero {E nu : ℝ} (hE : E ≠ 0) (h1 : 2 * (1 + nu) ≠ 0) :
    3 * k * (E / (2 * (1 + nu))) ≠ 0 :=
  mul_ne_zero (by norm_num [k]) (div_ne_zero hE h1)

/-- On inputs where none of the plain-float divisions hits a zero denominator,
the `Except`-level solver succeeds with the value of the idealised solver. -/
theorem speed_py_ok (fsolve : RootFinder) (g E nu h hf rho theta l C0 : ℝ)
    (h1 : 2 * (1 + nu) ≠ 0) (h2 : 3 * k * (E / (2 * (1 + nu))) ≠ 0)
    (h3 : rho ≠ 0) (h4 : h ≠ 0) :
    anticrack_propagation_speed_py fsolve g E nu h hf rho theta l C0 =
      .ok (anticrack_propagation_speed fsolve g E nu h hf rho theta l C0) := by
  simp only [anticrack_propagation_speed_py, anticrack_propagation_speed,
    pdiv_of_ne h1, pdiv_of_ne h2, pdiv_of_ne h3, pdiv_of_ne h4]

/-- With a zero slab density every earlier division succeeds but line 95
(`k*G/rho`) raises `ZeroDivisionError`. -/
theorem speed_py_rho_zero (fsolve : RootFinder) (g E nu h hf theta l C0 : ℝ)
    (h1 : 2 * (1 + nu) ≠ 0) (h2 : 3 * k * (E / (2 * (1 + nu))) ≠ 0) :
    anticrack_propagation_speed_py fsolve g E nu h hf 0 theta l C0 =
      .error .zeroDivision := by
  simp only [anticrack_propagation_speed_py, pdiv_of_ne h1, pdiv_of_ne h2,
    pdiv_of_eq rfl]

/-- With a zero slab thickness every earlier division succeeds but line 102
(`L = l/h`) raises `ZeroDivisionError`. -/
theorem speed_py_h_zero (fsolve : RootFinder) (g E nu hf rho theta l C0 : ℝ)
    (h1 : 2 * (1 + nu) ≠ 0) (h2 : 3 * k * (E / (2 * (1 + nu))) ≠ 0)
    (h3 : rho ≠ 0) :
    anticrack_propagation_speed_py fsolve g E nu 0 hf rho theta l C0 =
      .error .zeroDivision := by
  simp only [anticrack_propagation_speed_py, pdiv_of_ne h1, pdiv_of_ne h2,
    pdiv_of_ne h3, pdiv_of_eq rfl]

/-- The inline expression `np.sqrt(k*G/rho)` of crack_propagation.py line 95
agrees in value with the wave-speed collaborator `shear_wave_speed` applied
to `(k*G, rho)` whenever the argument is nonnegative: delegating would not
change the computed value.  Whether the source delegates is a call-graph
fact, not a semantic one; the source computes the expression inline. -/
theorem inline_shear_speed_eq_collaborator (E nu rho : ℝ)
    (hx : 0 ≤ k * (E / (2 * (1 + nu))) / rho) :
    WavePropagation.shear_wave_speed (k * (E / (2 * (1 + nu)))) rho =
      some (Real.sqrt (k * (E / (2 * (1 + nu))) / rho)) := by
  unfold WavePropagation.shear_wave_speed
  exact WavePropagation.npSqrt_of_nonneg hx

end CrackPropagation

namespace CrackPropagation

/-- **C1.** For every input, the residual `_anticrack_propagation_speed`
hands to the root finder agrees pointwise with the specification residual
`f(C) = (L²/C²)·[(η/(L·C·(1−C²)))·(1/sin(2CL/η) − 1/tan(2CL/η)) − 1] − 2·H_f/Σ`
built from `G = E/(2(1+ν))`, `k = 5/6`, `η = sqrt(E/(3kG))`, `L = l/h`,
`H_f = h_f/h` and `Σ = −σ/(kG)`, and the returned speed is the root-finder
estimate seeded at the initial guess times the shear-wave speed
`sqrt(kG/ρ)`. -/
theorem anticrack_speed_matches_spec_residual (fsolve : RootFinder)
    (g E nu h hf rho theta l C0 : ℝ) :
    (∀ C, codeResidual g E nu h rho theta l hf C = specResidual g E nu h rho theta l hf C) ∧
      anticrack_propagation_speed fsolve g E nu h hf rho theta l C0 =
        (fsolve (specResidual g E nu h rho theta l hf) C0).1 *
          Real.sqrt (5 / 6 * (E / (2 * (1 + nu))) / rho) := by
  have hres : codeResidual g E nu h rho theta l hf = specResidual g E nu h rho theta l hf := by
    funext C
    unfold codeResidual specResidual func k
    ring
  refine ⟨fun C => by rw [hres], ?_⟩
  rw [← hres]
  unfold anticrack_propagation_speed codeResidual k
  rfl

/-- **C6.** The solver converts θ from degrees to radians and computes
`σ = −ρgh·cos θ` and `τ = ρgh·sin θ`; at θ = 0 this gives `τ = 0` and
`σ = −ρgh`; the dimensionless compressive stress satisfies `Σ = −σ/(kG)`
exactly (at θ = 0, `Σ = ρgh/(kG)`); the residual handed to the root finder
uses the stresses only through `Σ`, and deleting the dead locals `tau`,
`Tau` and `longitudinal_wave_velocity` leaves the returned speed
unchanged. -/
theorem anticrack_stress_formulas (fsolve : RootFinder)
    (g E nu h hf rho theta l C0 : ℝ) :
    sigma_of g rho h theta = -(rho * g * h) * Real.cos (theta * Real.pi / 180) ∧
      tau_of g rho h 0 = 0 ∧
      sigma_of g rho h 0 = -(rho * g * h) ∧
      Sigma_of E nu g rho h 0 = rho * g * h / (k * (E / (2 * (1 + nu)))) ∧
      codeResidual g E nu h rho theta l hf =
        func (Real.sqrt (E / (3 * k * (E / (2 * (1 + nu)))))) (l / h) (hf / h)
          (Sigma_of E nu g rho h theta) ∧
      anticrack_propagation_speed fsolve g E nu h hf rho theta l C0 =
        speedWithoutTau fsolve g E nu h hf rho theta l C0 := by
  refine ⟨by unfold sigma_of; ring, ?_, ?_, ?_, rfl, rfl⟩
  · unfold tau_of
    simp
  · unfold sigma_of
    simp
  · unfold Sigma_of sigma_of
    simp

/-- **C8.** The solver is a deterministic pure function of its arguments:
two successive calls with identical inputs and identical initial guess give
identical outputs, and equal parameter bundles give equal results; there is
no state shared across calls. -/
theorem anticrack_speed_deterministic (fsolve : RootFinder) (p q : SlabParameters)
    (hpq : p = q) :
    (speedOnTwice fsolve p).1 = (speedOnTwice fsolve p).2 ∧
      speedOn fsolve p = speedOn fsolve q := by
  subst hpq
  exact ⟨rfl, rfl⟩

/-- Concrete instantiation of `anticrack_speed_deterministic` at the spec §8
scenario parameters. -/
theorem anticrack_speed_deterministic_witness :
    (speedOnTwice idFinder sampleParams).1 = (speedOnTwice idFinder sampleParams).2 ∧
      speedOn idFinder sampleParams = speedOn idFinder sampleParams :=
  anticrack_speed_deterministic idFinder sampleParams sampleParams rfl

end CrackPropagation

namespace CrackPropagation

/-- **C3, counterexample.** On the concrete valid scenario of spec §8 with a
root finder that reports non-convergence, the solver still returns the
unconverged estimate scaled by the shear-wave speed as a normal `.ok` value:
the source has no non-convergence failure path. -/
theorem nonconvergence_not_surfaced_cex :
    (stuckFinder (fun _ => 0) (1 / 2)).2 = false ∧
      anticrack_propagation_speed_py stuckFinder (981 / 100) 1000000 (1 / 5) (3 / 10)
          (1 / 50) 200 38 1 (1 / 2) =
        .ok (2 / 5 * Real.sqrt (k * (1000000 / (2 * (1 + 1 / 5))) / 200)) := by
  constructor
  · rfl
  · rw [speed_py_ok stuckFinder (981 / 100) 1000000 (1 / 5) (3 / 10) (1 / 50) 200 38 1
      (1 / 2) (by norm_num) (eta_denominator_ne_zero (by norm_num) (by norm_num))
      (by norm_num) (by norm_num)]
    congr 1

/-- **C3, amended.** The source discards the convergence information of
`fsolve` (it calls it with default arguments and uses only the returned
estimate): whenever the plain-float divisions succeed the solver returns
`.ok` of the estimate scaled by the shear-wave speed, whatever the
convergence flag was; no `NonConvergence`-like failure is ever produced. -/
theorem nonconvergence_never_surfaced (fsolve : RootFinder)
    (g E nu h hf rho theta l C0 : ℝ)
    (h1 : 2 * (1 + nu) ≠ 0) (hE : E ≠ 0) (h3 : rho ≠ 0) (h4 : h ≠ 0) :
    anticrack_propagation_speed_py fsolve g E nu h hf rho theta l C0 =
      .ok ((fsolve (codeResidual g E nu h rho theta l hf) C0).1 *
        Real.sqrt (k * (E / (2 * (1 + nu))) / rho)) := by
  rw [speed_py_ok fsolve g E nu h hf rho theta l C0 h1
    (eta_denominator_ne_zero hE h1) h3 h4]
  rfl

/-- Concrete instantiation of `nonconvergence_never_surfaced` at the spec §8
scenario with the non-converging root finder. -/
theorem nonconvergence_never_surfaced_witness :
    anticrack_propagation_speed_py stuckFinder (981 / 100) 1000000 (1 / 5) (3 / 10)
        (1 / 50) 200 38 1 (1 / 2) =
      .ok ((stuckFinder (codeResidual (981 / 100) 1000000 (1 / 5) (3 / 10) 200 38 1
          (1 / 50)) (1 / 2)).1 *
        Real.sqrt (k * (1000000 / (2 * (1 + 1 / 5))) / 200)) :=
  nonconvergence_never_surfaced stuckFinder (981 / 100) 1000000 (1 / 5) (3 / 10)
    (1 / 50) 200 38 1 (1 / 2) (by norm_num) (by norm_num) (by norm_num) (by norm_num)

/-- **C4, counterexample.** With ρ = 0 and every other parameter from the
valid spec §8 scenario, the solver does not reject the input with
`InvalidParameter`: the plain-float division `k*G/rho` on line 95 raises a
bare `ZeroDivisionError` from inside the computation. -/
theorem no_invalid_parameter_rejection_cex :
    anticrack_propagation_speed_py idFinder (981 / 100) 1000000 (1 / 5) (3 / 10)
        (1 / 50) 0 38 1 (1 / 2) = .error .zeroDivision ∧
      (Except.error PyErr.zeroDivision : Except PyErr ℝ) ≠ .error .invalidParameter := by
  refine ⟨speed_py_rho_zero idFinder (981 / 100) 1000000 (1 / 5) (3 / 10) (1 / 50) 38 1
    (1 / 2) (by norm_num) (eta_denominator_ne_zero (by norm_num) (by norm_num)), by simp⟩

/-- **C4, amended.** The source performs no parameter validation.  With ρ = 0
or h = 0 a bare `ZeroDivisionError` escapes from inside the computation
(lines 95 and 102); with ν = 0.5, C₀ = 0 or C₀ = 1 nothing is raised at all:
the solve proceeds and an `.ok` value is returned.  No input is ever
rejected with `InvalidParameter`. -/
theorem boundary_inputs_no_validation (fsolve : RootFinder)
    (g E nu h hf rho theta l C0 : ℝ)
    (h1 : 2 * (1 + nu) ≠ 0) (hE : E ≠ 0) (h3 : rho ≠ 0) (h4 : h ≠ 0) :
    anticrack_propagation_speed_py fsolve g E nu h hf 0 theta l C0 =
        .error .zeroDivision ∧
      anticrack_propagation_speed_py fsolve g E nu 0 hf rho theta l C0 =
        .error .zeroDivision ∧
      anticrack_propagation_speed_py fsolve g E (1 / 2) h hf rho theta l C0 =
        .ok (anticrack_propagation_speed fsolve g E (1 / 2) h hf rho theta l C0) ∧
      anticrack_propagation_speed_py fsolve g E nu h hf rho theta l 0 =
        .ok (anticrack_propagation_speed fsolve g E nu h hf rho theta l 0) ∧
      anticrack_propagation_speed_py fsolve g E nu h hf rho theta l 1 =
        .ok (anticrack_propagation_speed fsolve g E nu h hf rho theta l 1) :=
  ⟨speed_py_rho_zero fsolve g E nu h hf theta l C0 h1 (eta_denominator_ne_zero hE h1),
   speed_py_h_zero fsolve g E nu hf rho theta l C0 h1 (eta_denominator_ne_zero hE h1) h3,
   speed_py_ok fsolve g E (1 / 2) h hf rho theta l C0 (by norm_num)
     (eta_denominator_ne_zero hE (by norm_num)) h3 h4,
   speed_py_ok fsolve g E nu h hf rho theta l 0 h1
     (eta_denominator_ne_zero hE h1) h3 h4,
   speed_py_ok fsolve g E nu h hf rho theta l 1 h1
     (eta_denominator_ne_zero hE h1) h3 h4⟩

/-- Concrete instantiation of `boundary_inputs_no_validation`: at ρ = 0 the
spec §8 scenario produces a `ZeroDivisionError`, not an `InvalidParameter`
rejection. -/
theorem boundary_inputs_no_validation_witness :
    anticrack_propagation_speed_py idFinder (981 / 100) 1000000 (1 / 5) (3 / 10)
        (1 / 50) 0 38 1 (1 / 2) = .error .zeroDivision :=
  (boundary_inputs_no_validation idFinder (981 / 100) 1000000 (1 / 5) (3 / 10) (1 / 50)
    200 38 1 (1 / 2) (by norm_num) (by norm_num) (by norm_num) (by norm_num)).1

end CrackPropagation

namespace CrackPropagation

/-- **C5, counterexample.** On the concrete valid parameters of spec §8, a
root-finder estimate of 2 makes the solver return twice the shear-wave
speed: nothing in the source constrains the root to (0,1), so the returned
speed is not bounded above by the shear-wave speed. -/
theorem speed_bound_cex :
    anticrack_propagation_speed_py outsideFinder (981 / 100) 1000000 (1 / 5) (3 / 10)
        (1 / 50) 200 38 1 (1 / 2) =
      .ok (2 * Real.sqrt (k * (1000000 / (2 * (1 + 1 / 5))) / 200)) ∧
      ¬ 2 * Real.sqrt (k * (1000000 / (2 * (1 + 1 / 5))) / 200) <
          Real.sqrt (k * (1000000 / (2 * (1 + 1 / 5))) / 200) := by
  constructor
  · rw [speed_py_ok outsideFinder (981 / 100) 1000000 (1 / 5) (3 / 10) (1 / 50) 200 38 1
      (1 / 2) (by norm_num) (eta_denominator_ne_zero (by norm_num) (by norm_num))
      (by norm_num) (by norm_num)]
    congr 1
  · push_neg
    nlinarith [Real.sqrt_nonneg (k * (1000000 / (2 * (1 + 1 / 5))) / 200)]

/-- **C5, amended.** On parameters satisfying the §3 invariants the solver
returns the root-finder estimate C* times the shear-wave speed c_s, and
since c_s > 0 the returned speed lies strictly between 0 and c_s exactly
when C* lies in (0,1) — a condition the source does not enforce on the
estimate. -/
theorem speed_in_bounds_iff_estimate_in_unit_interval (fsolve : RootFinder)
    (g E nu h hf rho theta l C0 : ℝ)
    (hE : 0 < E) (hnu : -1 < nu) (hrho : 0 < rho) (h4 : h ≠ 0) :
    anticrack_propagation_speed_py fsolve g E nu h hf rho theta l C0 =
        .ok ((fsolve (codeResidual g E nu h rho theta l hf) C0).1 *
          Real.sqrt (k * (E / (2 * (1 + nu))) / rho)) ∧
      (0 < (fsolve (codeResidual g E nu h rho theta l hf) C0).1 *
            Real.sqrt (k * (E / (2 * (1 + nu))) / rho) ∧
          (fsolve (codeResidual g E nu h rho theta l hf) C0).1 *
              Real.sqrt (k * (E / (2 * (1 + nu))) / rho) <
            Real.sqrt (k * (E / (2 * (1 + nu))) / rho) ↔
        0 < (fsolve (codeResidual g E nu h rho theta l hf) C0).1 ∧
          (fsolve (codeResidual g E nu h rho theta l hf) C0).1 < 1) := by
  have hden : (0 : ℝ) < 2 * (1 + nu) := by linarith
  have hk : (0 : ℝ) < k := by norm_num [k]
  have harg : 0 < k * (E / (2 * (1 + nu))) / rho :=
    div_pos (mul_pos hk (div_pos hE hden)) hrho
  have hcs : 0 < Real.sqrt (k * (E / (2 * (1 + nu))) / rho) := Real.sqrt_pos.mpr harg
  constructor
  · rw [speed_py_ok fsolve g E nu h hf rho theta l C0 (ne_of_gt hden)
      (eta_denominator_ne_zero (ne_of_gt hE) (ne_of_gt hden)) (ne_of_gt hrho) h4]
    rfl
  · constructor
    · rintro ⟨ha, hb⟩
      refine ⟨?_, (mul_lt_iff_lt_one_left hcs).mp hb⟩
      rcases mul_pos_iff.mp ha with hpos | hneg
      · exact hpos.1
      · exact absurd hcs (not_lt.mpr hneg.2.le)
    · rintro ⟨ha, hb⟩
      exact ⟨mul_pos ha hcs, (mul_lt_iff_lt_one_left hcs).mpr hb⟩

/-- Concrete instantiation of `speed_in_bounds_iff_estimate_in_unit_interval`
at the spec §8 scenario with the identity-like root finder. -/
theorem speed_in_bounds_iff_witness :
    anticrack_propagation_speed_py idFinder (981 / 100) 1000000 (1 / 5) (3 / 10)
        (1 / 50) 200 0 1 (1 / 2) =
      .ok ((idFinder (codeResidual (981 / 100) 1000000 (1 / 5) (3 / 10) 200 0 1
          (1 / 50)) (1 / 2)).1 *
        Real.sqrt (k * (1000000 / (2 * (1 + 1 / 5))) / 200)) :=
  (speed_in_bounds_iff_estimate_in_unit_interval idFinder (981 / 100) 1000000 (1 / 5)
    (3 / 10) (1 / 50) 200 0 1 (1 / 2) (by norm_num) (by norm_num) (by norm_num)
    (by norm_num)).1

end CrackPropagation

namespace WavePropagation

/-- **C7, counterexample.** At ν = −0.9, inside the claimed domain
(−1, 0.5), with E = G = ρ = 1, the Bergmann ratio (0.87 + 1.12ν)/(1 + ν) is
negative, `np.sqrt` yields NaN (modelled `none`), and `rayleigh_wave_speed`
returns no real value at all, so it is not less than the shear-wave speed. -/
theorem rayleigh_lt_shear_cex :
    (0 : ℝ) < 1 ∧ (-1 : ℝ) < -9 / 10 ∧ (-9 / 10 : ℝ) < 1 / 2 ∧
      rayleigh_wave_speed 1 1 1 (-9 / 10) = none ∧
      ¬ ∃ r s, rayleigh_wave_speed 1 1 1 (-9 / 10) = some r ∧
          shear_wave_speed 1 1 = some s ∧ r < s := by
  have hneg : ((0.87 : ℝ) + 1.12 * (-9 / 10)) / (1 + -9 / 10) < 0 := by norm_num
  have hnone : rayleigh_wave_speed 1 1 1 (-9 / 10) = none := by
    unfold rayleigh_wave_speed
    rw [npSqrt_of_neg hneg]
    rfl
  refine ⟨by norm_num, by norm_num, by norm_num, hnone, ?_⟩
  rintro ⟨r, s, hr, -, -⟩
  rw [hnone] at hr
  exact Option.noConfusion hr

/-- **C7, amended.** For every E, and G, ρ > 0, and every ν with
−87/112 ≤ ν < 1/2 (−87/112 = −0.776785… is where the Bergmann ratio changes
sign; below it `np.sqrt` yields NaN), `rayleigh_wave_speed` returns the
Bergmann factor times the shear-wave speed and is strictly below the
shear-wave speed, because the factor is then < 1. -/
theorem rayleigh_lt_shear_on_bergmann_domain (E G rho nu : ℝ)
    (hG : 0 < G) (hrho : 0 < rho) (hlo : -(87 / 112) ≤ nu) (hhi : nu < 1 / 2) :
    rayleigh_wave_speed E G rho nu =
        some (Real.sqrt ((0.87 + 1.12 * nu) / (1 + nu)) * Real.sqrt (G / rho)) ∧
      shear_wave_speed G rho = some (Real.sqrt (G / rho)) ∧
      Real.sqrt ((0.87 + 1.12 * nu) / (1 + nu)) * Real.sqrt (G / rho) <
        Real.sqrt (G / rho) := by
  have hnum : (0 : ℝ) ≤ 0.87 + 1.12 * nu := by nlinarith
  have hden : (0 : ℝ) < 1 + nu := by nlinarith
  have hratio : (0 : ℝ) ≤ (0.87 + 1.12 * nu) / (1 + nu) := div_nonneg hnum hden.le
  have hratio1 : (0.87 + 1.12 * nu) / (1 + nu) < 1 := by
    rw [div_lt_one hden]
    nlinarith
  have hshear : shear_wave_speed G rho = some (Real.sqrt (G / rho)) := by
    unfold shear_wave_speed
    exact npSqrt_of_nonneg (div_nonneg hG.le hrho.le)
  have hs : 0 < Real.sqrt (G / rho) := Real.sqrt_pos.mpr (div_pos hG hrho)
  have hx1 : Real.sqrt ((0.87 + 1.12 * nu) / (1 + nu)) < 1 := by
    calc Real.sqrt ((0.87 + 1.12 * nu) / (1 + nu)) < Real.sqrt 1 :=
          Real.sqrt_lt_sqrt hratio hratio1
      _ = 1 := Real.sqrt_one
  refine ⟨?_, hshear, mul_lt_of_lt_one_left hs hx1⟩
  unfold rayleigh_wave_speed
  rw [npSqrt_of_nonneg hratio, hshear]
  rfl

/-- Concrete instantiation of `rayleigh_lt_shear_on_bergmann_domain` at
ν = 0, E = G = ρ = 1. -/
theorem rayleigh_lt_shear_witness :
    rayleigh_wave_speed 1 1 1 0 =
        some (Real.sqrt ((0.87 + 1.12 * 0) / (1 + 0)) * Real.sqrt (1 / 1)) ∧
      shear_wave_speed 1 1 = some (Real.sqrt (1 / 1)) ∧
      Real.sqrt ((0.87 + 1.12 * 0) / (1 + 0)) * Real.sqrt (1 / 1) < Real.sqrt (1 / 1) :=
  rayleigh_lt_shear_on_bergmann_domain 1 1 1 0 (by norm_num) (by norm_num)
    (by norm_num) (by norm_num)

end WavePropagation

namespace MechanicalParams

/-- **C9.** A unit string outside {"Pa","kPa","MPa","GPa"} makes
`scale_output` return the null-like `None`, and a scaling computation that
raises makes `apply_scaling` return `None`; both are plain null-like
returns accompanied only by a `print`, not typed failures surfaced to the
caller. -/
theorem bad_unit_and_failed_scaling_return_none (output_unit : String) (result : ℝ)
    (scaling : ℝ × ℝ) (scaling_factor formula_result : ℝ)
    (hu : output_unit ∉ validUnits) (hr : scalingRaises scaling scaling_factor) :
    scale_output output_unit result = none ∧
      apply_scaling (some scaling) scaling_factor formula_result = none := by
  constructor
  · simp only [validUnits, List.mem_cons, List.not_mem_nil, or_false, not_or] at hu
    obtain ⟨h1, h2, h3, h4⟩ := hu
    simp [scale_output, h1, h2, h3, h4]
  · simp [apply_scaling, hr]

/-- Concrete instantiation of `bad_unit_and_failed_scaling_return_none`: the
unit string "bar" and a zero scaling factor. -/
theorem bad_unit_and_failed_scaling_witness :
    scale_output "bar" 1 = none ∧ apply_scaling (some (1, 1)) 0 1 = none :=
  bad_unit_and_failed_scaling_return_none "bar" 1 (1, 1) 0 1 (by decide) (Or.inl rfl)


/-- **C10.** `get_rho_from_hhi_geldsetzer_2001` raises `ValueError` exactly
when the grain type is outside the supported set
{PP, PPgp, DF, RG, RGmx, FC, FCmx, DH, MFcr, MF, IF, SH}; every supported
grain type yields a (density, uncertainty) pair, and for "SH" both
components are NaN (modelled `none`) rather than an error being raised. -/
theorem geldsetzer_error_iff_unsupported (hhi : ℝ) (gt : String) :
    ((∃ msg, get_rho_from_hhi_geldsetzer_2001 hhi gt = .error msg) ↔
        gt ∉ supportedGrainTypes) ∧
      (gt ∈ supportedGrainTypes → ∃ p, get_rho_from_hhi_geldsetzer_2001 hhi gt = .ok p) ∧
      get_rho_from_hhi_geldsetzer_2001 hhi "SH" = .ok (none, none) := by
  refine ⟨⟨?_, ?_⟩, ?_, by simp [get_rho_from_hhi_geldsetzer_2001]⟩
  · rintro ⟨msg, hmsg⟩ hmem
    simp only [supportedGrainTypes, List.mem_cons, List.not_mem_nil, or_false] at hmem
    rcases hmem with h | h | h | h | h | h | h | h | h | h | h | h <;>
      subst h <;> simp [get_rho_from_hhi_geldsetzer_2001] at hmsg
  · intro hmem
    simp only [supportedGrainTypes, List.mem_cons, List.not_mem_nil, or_false,
      not_or] at hmem
    obtain ⟨h1, h2, h3, h4, h5, h6, h7, h8, h9, h10, h11, h12⟩ := hmem
    exact ⟨"grain type not valid: " ++ gt,
      by simp [get_rho_from_hhi_geldsetzer_2001, h1, h2, h3, h4, h5, h6, h7, h8, h9,
        h10, h11, h12]⟩
  · intro hmem
    simp only [supportedGrainTypes, List.mem_cons, List.not_mem_nil, or_false] at hmem
    rcases hmem with h | h | h | h | h | h | h | h | h | h | h | h <;>
      subst h <;> simp [get_rho_from_hhi_geldsetzer_2001]

/-- Concrete instantiation of `geldsetzer_error_iff_unsupported`: the
unsupported grain type "QQ" produces the error, and "SH" produces the NaN
pair. -/
theorem geldsetzer_witness :
    (∃ msg, get_rho_from_hhi_geldsetzer_2001 3 "QQ" = .error msg) ∧
      get_rho_from_hhi_geldsetzer_2001 3 "SH" = .ok (none, none) :=
  ⟨(geldsetzer_error_iff_unsupported 3 "QQ").1.mpr (by decide),
   (geldsetzer_error_iff_unsupported 3 "SH").2.2⟩

end MechanicalParams
